import Mathlib

/-
Verification of the Jupiter physical-observation ephemeris
(src/planet/jupiter.rs, function `ephemeris`).

The Rust source computes with `f64`; here the scalar type is an arbitrary
linear ordered field `α` equipped with a `FloorRing` instance (for angle
normalization) and an abstract package `Trig` of the floating-point
trigonometric primitives (`sin`, `cos`, `tan`, `asin`, `atan2`, `sqrt`,
and the constant `pi`).  The external collaborator functions that the
ephemeris calls but that live in other modules of the library
(`planet::heliocen_pos`, `planet::geocen_ecl_rect_coords`,
`planet::dist_frm_ecl_rect_coords`, `planet::light_time`,
`nutation::nutation_in_eq_coords`) are bundled in a `Collab` record and
universally quantified, since their definitions are not part of the
sources under verification.  Every definition below mirrors the source
line by line; structural theorems about the pipeline are then stated for
all instantiations of the scalar type and the collaborators.
-/

namespace Astro

/-- The planets of the library's `planet::Planet` enum; the ephemeris core
only evaluates the heliocentric solver at `Earth` and `Jupiter`. -/
inductive Planet : Type where
  | Mercury
  | Venus
  | Earth
  | Mars
  | Jupiter
  | Saturn
  | Uranus
  | Neptune
  deriving DecidableEq, Repr

/-- Abstract package of the scalar trigonometric primitives used by the
ephemeris (the `f64` methods `sin`, `cos`, `tan`, `asin`, `atan2`, `sqrt`
and the constant `PI` of the Rust source), modelled as unconstrained
functions on the scalar field. -/
structure Trig (α : Type) where
  pi : α
  sin : α → α
  cos : α → α
  tan : α → α
  asin : α → α
  atan2 : α → α → α
  sqrt : α → α

/-- Modelled from the spec: the external collaborator interfaces consumed
by the ephemeris core (spec section 6) — the heliocentric position solver,
geocentric rectification, distance, light-time and nutation-in-equatorial-
coordinates functions.  Their implementations are in modules of the
library that are not part of the sources under verification, so they are
abstract fields here. -/
structure Collab (α : Type) where
  heliocen_pos : Planet → α → α × α × α
  geocen_ecl_rect_coords : α → α → α → α → α → α → α × α × α
  dist_frm_ecl_rect_coords : α → α → α → α
  light_time : α → α
  nutation_in_eq_coords : α → α → α → α → α → α × α

variable {α : Type} [LinearOrderedField α] [FloorRing α]

/-- The `f64::to_radians` conversion: multiply by `pi / 180`. -/
def toRadians (T : Trig α) (x : α) : α := x * (T.pi / 180)

/-- The `f64::to_degrees` conversion: multiply by `180 / pi`. -/
def toDegrees (T : Trig α) (x : α) : α := x * (180 / T.pi)

/-- Modelled from the spec: `angle::LimitTo360`, the external
`normalize_degrees_0_360` collaborator that normalizes an angle in degrees
into the interval from 0 inclusive to 360 exclusive. -/
def LimitTo360 (x : α) : α := x - 360 * (⌊x / 360⌋ : α)

namespace jupiter

/-- Day offset from the epoch JDE 2433282.5 (source line 52). -/
def d (JD : α) : α := JD - 2433282.5

/-- Julian centuries from the epoch (source line 53). -/
def T1 (JD : α) : α := d JD / 36525

/-- Right ascension of Jupiter's north pole (source line 55). -/
def asc0 (T : Trig α) (JD : α) : α := toRadians T (268.0 + 0.1061 * T1 JD)

/-- Declination of Jupiter's north pole (source line 56). -/
def dec0 (T : Trig α) (JD : α) : α := toRadians T (64.5 - 0.0164 * T1 JD)

/-- System I prime-meridian angle (source line 58). -/
def W1 (T : Trig α) (JD : α) : α :=
  toRadians T (LimitTo360 (17.710 + 877.90003539 * d JD))

/-- System II prime-meridian angle (source line 59). -/
def W2 (T : Trig α) (JD : α) : α :=
  toRadians T (LimitTo360 (16.838 + 870.27003539 * d JD))

/-- Earth's heliocentric position `(l0, b0, R)` at `JD` (source line 61). -/
def earthPos (C : Collab α) (JD : α) : α × α × α :=
  C.heliocen_pos Planet.Earth JD

/-- State of the light-time loop of source lines 63..81: the mutable
locals `l, b, r, x, y, z, jup_earth_dist, light_time`, together with the
trace of invocations of the heliocentric solver (instrumentation for the
iteration-count property; the source performs exactly the logged calls). -/
structure LoopSt (α : Type) where
  l : α
  b : α
  r : α
  x : α
  y : α
  z : α
  jup_earth_dist : α
  light_time : α
  calls : List (Planet × α)

/-- One pass of the light-time loop body (source lines 70..81): evaluate
Jupiter's heliocentric position at `JD - light_time`, rectify to
geocentric rectangular coordinates with Earth's position, recompute the
Earth-Jupiter distance and the light time. -/
def loopBody (C : Collab α) (JD l0 b0 R : α) (s : LoopSt α) : LoopSt α :=
  let h := C.heliocen_pos Planet.Jupiter (JD - s.light_time)
  let l := h.1
  let b := h.2.1
  let r := h.2.2
  let g := C.geocen_ecl_rect_coords l0 b0 R l b r
  let x := g.1
  let y := g.2.1
  let z := g.2.2
  let dist := C.dist_frm_ecl_rect_coords x y z
  { l := l, b := b, r := r, x := x, y := y, z := z,
    jup_earth_dist := dist, light_time := C.light_time dist,
    calls := s.calls ++ [(Planet.Jupiter, JD - s.light_time)] }

/-- Initial loop state (source lines 63..66): every local starts at 0; the
trace starts with the single pre-loop Earth evaluation of line 61. -/
def loopInit (JD : α) : LoopSt α :=
  { l := 0, b := 0, r := 0, x := 0, y := 0, z := 0,
    jup_earth_dist := 0, light_time := 0,
    calls := [(Planet.Earth, JD)] }

/-- The source's `while i <= n` counter loop (lines 68..81): starting from
counter `i`, apply `f` while the counter has not passed `n`. -/
def whileLe {σ : Type} (f : σ → σ) (i n : Nat) (s : σ) : σ :=
  if i ≤ n then whileLe f (i + 1) n (f s) else s
termination_by n + 1 - i
decreasing_by omega

/-- Final state of the light-time loop: the source runs `whileLe` with
`i = 1` and `n = 2` (source lines 68..69). -/
def loopFinal (C : Collab α) (JD : α) : LoopSt α :=
  whileLe
    (loopBody C JD (earthPos C JD).1 (earthPos C JD).2.1 (earthPos C JD).2.2)
    1 2 (loopInit JD)

/-- The sequence of heliocentric-solver invocations performed by
`ephemeris`, in order. -/
def ephemerisCalls (C : Collab α) (JD : α) : List (Planet × α) :=
  (loopFinal C JD).calls

/-- Jupiter's heliocentric longitude after the defect-of-illumination
correction of source line 83: subtract `0.01299° · Δ / r²` (in radians)
from the loop's longitude. -/
def lCorr (T : Trig α) (C : Collab α) (JD : α) : α :=
  (loopFinal C JD).l -
    toRadians T 0.01299 * (loopFinal C JD).jup_earth_dist /
      ((loopFinal C JD).r * (loopFinal C JD).r)

/-- Geocentric rectangular coordinates recomputed from the corrected
longitude (source line 84). -/
def rect2 (T : Trig α) (C : Collab α) (JD : α) : α × α × α :=
  C.geocen_ecl_rect_coords (earthPos C JD).1 (earthPos C JD).2.1
    (earthPos C JD).2.2 (lCorr T C JD) (loopFinal C JD).b (loopFinal C JD).r

/-- Earth-Jupiter distance recomputed from the corrected coordinates
(source line 85). -/
def dist2 (T : Trig α) (C : Collab α) (JD : α) : α :=
  C.dist_frm_ecl_rect_coords (rect2 T C JD).1 (rect2 T C JD).2.1
    (rect2 T C JD).2.2

/-- Right ascension of the Sun as seen from Jupiter (source line 87). -/
def asc_s (T : Trig α) (C : Collab α) (JD mn_oblq_eclip : α) : α :=
  T.atan2
    (T.cos mn_oblq_eclip * T.sin (lCorr T C JD) -
      T.sin mn_oblq_eclip * T.tan (loopFinal C JD).b)
    (T.cos (lCorr T C JD))

/-- Declination of the Sun as seen from Jupiter (source line 88). -/
def dec_s (T : Trig α) (C : Collab α) (JD mn_oblq_eclip : α) : α :=
  T.asin (T.cos mn_oblq_eclip * T.sin (loopFinal C JD).b +
    T.sin mn_oblq_eclip * T.cos (loopFinal C JD).b * T.sin (lCorr T C JD))

/-- Planetocentric declination of the Sun, `D_s` (source line 90). -/
def D_s (T : Trig α) (C : Collab α) (JD mn_oblq_eclip : α) : α :=
  T.asin (-T.sin (dec0 T JD) * T.sin (dec_s T C JD mn_oblq_eclip) -
    T.cos (dec0 T JD) * T.cos (dec_s T C JD mn_oblq_eclip) *
      T.cos (asc0 T JD - asc_s T C JD mn_oblq_eclip))

/-- Intermediate `u` (source line 92). -/
def u (T : Trig α) (C : Collab α) (JD mn_oblq_eclip : α) : α :=
  (rect2 T C JD).2.1 * T.cos mn_oblq_eclip -
    (rect2 T C JD).2.2 * T.sin mn_oblq_eclip

/-- Intermediate `v` (source line 93). -/
def v (T : Trig α) (C : Collab α) (JD mn_oblq_eclip : α) : α :=
  (rect2 T C JD).2.1 * T.sin mn_oblq_eclip +
    (rect2 T C JD).2.2 * T.cos mn_oblq_eclip

/-- Jupiter's geocentric right ascension before aberration and nutation
(source line 94). -/
def ascRaw (T : Trig α) (C : Collab α) (JD mn_oblq_eclip : α) : α :=
  T.atan2 (u T C JD mn_oblq_eclip) (rect2 T C JD).1

/-- Jupiter's geocentric declination before aberration and nutation
(source line 95). -/
def decRaw (T : Trig α) (C : Collab α) (JD mn_oblq_eclip : α) : α :=
  T.atan2 (v T C JD mn_oblq_eclip)
    (T.sqrt ((rect2 T C JD).1 * (rect2 T C JD).1 +
      u T C JD mn_oblq_eclip * u T C JD mn_oblq_eclip))

/-- Geometric position angle `zeta` of the pole (source lines 96..97). -/
def zeta (T : Trig α) (C : Collab α) (JD mn_oblq_eclip : α) : α :=
  T.atan2
    (T.sin (dec0 T JD) * T.cos (decRaw T C JD mn_oblq_eclip) *
        T.cos (asc0 T JD - ascRaw T C JD mn_oblq_eclip) -
      T.sin (decRaw T C JD mn_oblq_eclip) * T.cos (dec0 T JD))
    (T.cos (decRaw T C JD mn_oblq_eclip) *
      T.sin (asc0 T JD - ascRaw T C JD mn_oblq_eclip))

/-- Planetocentric declination of the Earth, `D_e` (source line 99). -/
def D_e (T : Trig α) (C : Collab α) (JD mn_oblq_eclip : α) : α :=
  T.asin (-T.sin (dec0 T JD) * T.sin (decRaw T C JD mn_oblq_eclip) -
    T.cos (dec0 T JD) * T.cos (decRaw T C JD mn_oblq_eclip) *
      T.cos (asc0 T JD - ascRaw T C JD mn_oblq_eclip))

/-- Normalized System I central-meridian longitude in degrees (source
line 101). -/
def w1deg (T : Trig α) (C : Collab α) (JD mn_oblq_eclip : α) : α :=
  LimitTo360 (toDegrees T (W1 T JD) - toDegrees T (zeta T C JD mn_oblq_eclip) -
    5.07033 * dist2 T C JD)

/-- Normalized System II central-meridian longitude in degrees (source
line 102). -/
def w2deg (T : Trig α) (C : Collab α) (JD mn_oblq_eclip : α) : α :=
  LimitTo360 (toDegrees T (W2 T JD) - toDegrees T (zeta T C JD mn_oblq_eclip) -
    5.02626 * dist2 T C JD)

/-- Magnitude of the parallactic correction `C` (source lines 104..105). -/
def CtermBase (T : Trig α) (C : Collab α) (JD : α) : α :=
  57.2958 * (2 * (loopFinal C JD).r * dist2 T C JD +
      (earthPos C JD).2.2 * (earthPos C JD).2.2 -
      (loopFinal C JD).r * (loopFinal C JD).r -
      dist2 T C JD * dist2 T C JD) /
    (4 * (loopFinal C JD).r * dist2 T C JD)

/-- The parallactic correction with its sign rule (source lines 106..108):
negated exactly when `sin (l - l0) < 0`. -/
def Cterm (T : Trig α) (C : Collab α) (JD : α) : α :=
  if T.sin (lCorr T C JD - (earthPos C JD).1) < 0
  then -CtermBase T C JD else CtermBase T C JD

/-- Returned System I longitude (source line 109): normalized longitude
plus the parallactic correction, converted to radians. -/
def w1fin (T : Trig α) (C : Collab α) (JD mn_oblq_eclip : α) : α :=
  toRadians T (w1deg T C JD mn_oblq_eclip + Cterm T C JD)

/-- Returned System II longitude (source line 110). -/
def w2fin (T : Trig α) (C : Collab α) (JD mn_oblq_eclip : α) : α :=
  toRadians T (w2deg T C JD mn_oblq_eclip + Cterm T C JD)

/-- True obliquity of the ecliptic (source line 112). -/
def tru_oblq_eclip (mn_oblq_eclip nut_in_oblq : α) : α :=
  mn_oblq_eclip + nut_in_oblq

/-- Jupiter's right ascension after the differential aberration correction
(source lines 114..115). -/
def ascAb (T : Trig α) (C : Collab α) (JD mn_oblq_eclip nut_in_oblq : α) : α :=
  ascRaw T C JD mn_oblq_eclip +
    toRadians T 0.005693 *
      (T.cos (ascRaw T C JD mn_oblq_eclip) * T.cos (earthPos C JD).1 *
          T.cos (tru_oblq_eclip mn_oblq_eclip nut_in_oblq) +
        T.sin (ascRaw T C JD mn_oblq_eclip) * T.sin (earthPos C JD).1) /
      T.cos (decRaw T C JD mn_oblq_eclip)

/-- Jupiter's declination after the differential aberration correction
(source lines 116..118); note the source updates `asc` first, so the
increment reads the already-corrected right ascension. -/
def decAb (T : Trig α) (C : Collab α) (JD mn_oblq_eclip nut_in_oblq : α) : α :=
  decRaw T C JD mn_oblq_eclip +
    toRadians T 0.005693 *
      (T.cos (earthPos C JD).1 * T.cos (tru_oblq_eclip mn_oblq_eclip nut_in_oblq) *
          (T.tan (tru_oblq_eclip mn_oblq_eclip nut_in_oblq) *
              T.cos (decRaw T C JD mn_oblq_eclip) -
            T.sin (ascAb T C JD mn_oblq_eclip nut_in_oblq) *
              T.cos (ascAb T C JD mn_oblq_eclip nut_in_oblq)) +
        T.cos (ascAb T C JD mn_oblq_eclip nut_in_oblq) *
          T.sin (decRaw T C JD mn_oblq_eclip) * T.sin (earthPos C JD).1)

/-- Jupiter's right ascension after aberration and nutation, `asc1`
(source lines 120..122). -/
def asc1 (T : Trig α) (C : Collab α)
    (JD mn_oblq_eclip nut_in_long nut_in_oblq : α) : α :=
  ascAb T C JD mn_oblq_eclip nut_in_oblq +
    (C.nutation_in_eq_coords (ascAb T C JD mn_oblq_eclip nut_in_oblq)
      (decAb T C JD mn_oblq_eclip nut_in_oblq) nut_in_long nut_in_oblq
      (tru_oblq_eclip mn_oblq_eclip nut_in_oblq)).1

/-- Jupiter's declination after aberration and nutation, `dec1`
(source lines 120..123). -/
def dec1 (T : Trig α) (C : Collab α)
    (JD mn_oblq_eclip nut_in_long nut_in_oblq : α) : α :=
  decAb T C JD mn_oblq_eclip nut_in_oblq +
    (C.nutation_in_eq_coords (ascAb T C JD mn_oblq_eclip nut_in_oblq)
      (decAb T C JD mn_oblq_eclip nut_in_oblq) nut_in_long nut_in_oblq
      (tru_oblq_eclip mn_oblq_eclip nut_in_oblq)).2

/-- Pole right ascension after nutation, `asc01` (source lines 125..127);
the source applies no aberration correction to the pole. -/
def asc01 (T : Trig α) (C : Collab α)
    (JD mn_oblq_eclip nut_in_long nut_in_oblq : α) : α :=
  asc0 T JD +
    (C.nutation_in_eq_coords (asc0 T JD) (dec0 T JD) nut_in_long nut_in_oblq
      (tru_oblq_eclip mn_oblq_eclip nut_in_oblq)).1

/-- Pole declination after nutation, `dec01` (source lines 125..128). -/
def dec01 (T : Trig α) (C : Collab α)
    (JD mn_oblq_eclip nut_in_long nut_in_oblq : α) : α :=
  dec0 T JD +
    (C.nutation_in_eq_coords (asc0 T JD) (dec0 T JD) nut_in_long nut_in_oblq
      (tru_oblq_eclip mn_oblq_eclip nut_in_oblq)).2

/-- Position angle of Jupiter's axis, `P` (source lines 130..131). -/
def Pangle (T : Trig α) (C : Collab α)
    (JD mn_oblq_eclip nut_in_long nut_in_oblq : α) : α :=
  T.atan2
    (T.cos (dec01 T C JD mn_oblq_eclip nut_in_long nut_in_oblq) *
      T.sin (asc01 T C JD mn_oblq_eclip nut_in_long nut_in_oblq -
        asc1 T C JD mn_oblq_eclip nut_in_long nut_in_oblq))
    (T.sin (dec01 T C JD mn_oblq_eclip nut_in_long nut_in_oblq) *
        T.cos (dec1 T C JD mn_oblq_eclip nut_in_long nut_in_oblq) -
      T.cos (dec01 T C JD mn_oblq_eclip nut_in_long nut_in_oblq) *
        T.sin (dec1 T C JD mn_oblq_eclip nut_in_long nut_in_oblq) *
        T.cos (asc01 T C JD mn_oblq_eclip nut_in_long nut_in_oblq -
          asc1 T C JD mn_oblq_eclip nut_in_long nut_in_oblq))

/-- The ephemeris for physical observations of Jupiter (source lines
49..134): returns `(D_e, D_s, w1, w2, P)`. -/
def ephemeris (T : Trig α) (C : Collab α)
    (JD mn_oblq_eclip nut_in_long nut_in_oblq : α) : α × α × α × α × α :=
  (D_e T C JD mn_oblq_eclip, D_s T C JD mn_oblq_eclip,
    w1fin T C JD mn_oblq_eclip, w2fin T C JD mn_oblq_eclip,
    Pangle T C JD mn_oblq_eclip nut_in_long nut_in_oblq)

/-- The differential aberration correction of spec section 4.5, as a
transformation of an equatorial coordinate pair: the first-order Taylor
formula of the source, with the declination increment reading the
already-corrected right ascension. -/
def applyAberration (T : Trig α) (l0 eps : α) (ad : α × α) : α × α :=
  let a := ad.1 +
    toRadians T 0.005693 *
      (T.cos ad.1 * T.cos l0 * T.cos eps + T.sin ad.1 * T.sin l0) /
      T.cos ad.2
  let dd := ad.2 +
    toRadians T 0.005693 *
      (T.cos l0 * T.cos eps * (T.tan eps * T.cos ad.2 - T.sin a * T.cos a) +
        T.cos a * T.sin ad.2 * T.sin l0)
  (a, dd)

/-- The additive nutation correction of spec section 4.5, as a
transformation of an equatorial coordinate pair: add the corrections
returned by the external nutation collaborator. -/
def applyNutation (C : Collab α) (nut_in_long nut_in_oblq eps : α)
    (ad : α × α) : α × α :=
  (ad.1 + (C.nutation_in_eq_coords ad.1 ad.2 nut_in_long nut_in_oblq eps).1,
    ad.2 + (C.nutation_in_eq_coords ad.1 ad.2 nut_in_long nut_in_oblq eps).2)

/-- The position-angle formula of spec section 4.6: a single `atan2`
combining the corrected target and pole equatorial coordinates. -/
def positionAngle (T : Trig α) (a1 d1 a01 d01 : α) : α :=
  T.atan2 (T.cos d01 * T.sin (a01 - a1))
    (T.sin d01 * T.cos d1 - T.cos d01 * T.sin d1 * T.cos (a01 - a1))

/-- The defect-of-illumination correction of spec section 4.2: subtract a
constant times the Earth-target distance over the radius squared. -/
def defectCorrection (T : Trig α) (l dist r : α) : α :=
  l - toRadians T 0.01299 * dist / (r * r)

/-- Concrete instantiation of the trigonometric primitives over the
rationals, used for evaluating the pipeline at concrete inputs: `pi` is
set to 180 so that degree-radian conversions are the identity, cosine is
constantly 1 and the remaining primitives are constantly 0. -/
def constTrig : Trig ℚ where
  pi := 180
  sin := fun _ => 0
  cos := fun _ => 1
  tan := fun _ => 0
  asin := fun _ => 0
  atan2 := fun _ _ => 0
  sqrt := fun _ => 0

/-- Concrete instantiation of the external collaborators over the
rationals in which every collaborator returns zeros. -/
def zeroCollab : Collab ℚ where
  heliocen_pos := fun _ _ => (0, 0, 0)
  geocen_ecl_rect_coords := fun _ _ _ _ _ _ => (0, 0, 0)
  dist_frm_ecl_rect_coords := fun _ _ _ => 0
  light_time := fun _ => 0
  nutation_in_eq_coords := fun _ _ _ _ _ => (0, 0)

/-- Unroll the source's counter loop: starting at `i = 1` with bound
`n = 2`, the body runs exactly twice. -/
theorem whileLe_run_two {σ : Type} (f : σ → σ) (s : σ) :
    whileLe f 1 2 s = f (f s) := by
  rw [whileLe, if_pos (by omega), whileLe, if_pos (by omega),
    whileLe, if_neg (by omega)]

/-- The normalization into degrees is bounded below by 0. -/
theorem LimitTo360_nonneg (x : α) : 0 ≤ LimitTo360 x := by
  have h : ((⌊x / 360⌋ : ℤ) : α) ≤ x / 360 := Int.floor_le (x / 360)
  have hx : 360 * (x / 360) = x := by ring_nf
  have := mul_le_mul_of_nonneg_left h (by norm_num : (0:α) ≤ 360)
  unfold LimitTo360
  linarith

/-- The normalization into degrees is bounded above by 360. -/
theorem LimitTo360_lt (x : α) : LimitTo360 x < 360 := by
  have h : x / 360 < (⌊x / 360⌋ : α) + 1 := Int.lt_floor_add_one (x / 360)
  have hx : 360 * (x / 360) = x := by ring_nf
  have := mul_lt_mul_of_pos_left h (by norm_num : (0:α) < 360)
  unfold LimitTo360
  linarith

/-- C2: the light-time sub-procedure of `ephemeris` runs exactly 2 passes
regardless of the computed distance: the heliocentric solver is invoked
first for Earth (once, outside the loop, at `JD`), then for Jupiter at
`JD - light_time` on each of the two passes, the first with the initial
light time 0 and the second with the light time recomputed from the
first pass's Earth-Jupiter distance. -/
theorem ephemeris_heliocen_call_trace (C : Collab α) (JD : α) :
    (ephemerisCalls C JD).map Prod.fst =
      [Planet.Earth, Planet.Jupiter, Planet.Jupiter] ∧
    ephemerisCalls C JD =
      [(Planet.Earth, JD), (Planet.Jupiter, JD - 0),
        (Planet.Jupiter, JD -
          (loopBody C JD (earthPos C JD).1 (earthPos C JD).2.1
            (earthPos C JD).2.2 (loopInit JD)).light_time)] := by
  have h := whileLe_run_two
    (loopBody C JD (earthPos C JD).1 (earthPos C JD).2.1 (earthPos C JD).2.2)
    (loopInit JD)
  unfold ephemerisCalls loopFinal
  rw [h]
  exact ⟨rfl, rfl⟩

/-- C4: the parallactic correction added to both central-meridian
longitudes flips sign exactly at `sin (l - l0) = 0`: the returned `w1`
and `w2` are the normalized longitudes plus a correction that is the
negated base magnitude when `sin (l - l0) < 0` and the base magnitude
otherwise, where `l` is the defect-corrected heliocentric longitude of
Jupiter and `l0` is Earth's heliocentric longitude. -/
theorem parallactic_sign_flip (T : Trig α) (C : Collab α)
    (JD mn_oblq_eclip nut_in_long nut_in_oblq : α) :
    (ephemeris T C JD mn_oblq_eclip nut_in_long nut_in_oblq).2.2.1 =
      toRadians T (w1deg T C JD mn_oblq_eclip +
        (if T.sin (lCorr T C JD - (earthPos C JD).1) < 0
          then -CtermBase T C JD else CtermBase T C JD)) ∧
    (ephemeris T C JD mn_oblq_eclip nut_in_long nut_in_oblq).2.2.2.1 =
      toRadians T (w2deg T C JD mn_oblq_eclip +
        (if T.sin (lCorr T C JD - (earthPos C JD).1) < 0
          then -CtermBase T C JD else CtermBase T C JD)) :=
  ⟨rfl, rfl⟩

/-- C5: for every input the two central-meridian longitudes are
normalized into the interval from 0 inclusive to 360 exclusive (degrees)
before the final parallactic correction is added, and the returned values
are the normalized longitudes plus that correction, converted to
radians. -/
theorem central_meridian_normalization (T : Trig α) (C : Collab α)
    (JD mn_oblq_eclip nut_in_long nut_in_oblq : α) :
    (0 ≤ w1deg T C JD mn_oblq_eclip ∧ w1deg T C JD mn_oblq_eclip < 360) ∧
    (0 ≤ w2deg T C JD mn_oblq_eclip ∧ w2deg T C JD mn_oblq_eclip < 360) ∧
    (ephemeris T C JD mn_oblq_eclip nut_in_long nut_in_oblq).2.2.1 =
      toRadians T (w1deg T C JD mn_oblq_eclip + Cterm T C JD) ∧
    (ephemeris T C JD mn_oblq_eclip nut_in_long nut_in_oblq).2.2.2.1 =
      toRadians T (w2deg T C JD mn_oblq_eclip + Cterm T C JD) :=
  ⟨⟨LimitTo360_nonneg _, LimitTo360_lt _⟩,
    ⟨LimitTo360_nonneg _, LimitTo360_lt _⟩, rfl, rfl⟩

/-- C6: the defect-of-illumination correction (the constant 0.01299
degrees times the Earth-Jupiter distance over the radius squared) is
applied to the longitude exactly once, after the 2-pass loop — the loop
body itself always leaves the longitude exactly as the heliocentric
solver returned it — and the rectangular coordinates and the distance
used downstream are recomputed from the corrected longitude. -/
theorem defect_correction_once_after_loop (T : Trig α) (C : Collab α)
    (JD : α) :
    lCorr T C JD = defectCorrection T (loopFinal C JD).l
      (loopFinal C JD).jup_earth_dist (loopFinal C JD).r ∧
    (∀ s : LoopSt α,
      (loopBody C JD (earthPos C JD).1 (earthPos C JD).2.1
        (earthPos C JD).2.2 s).l =
        (C.heliocen_pos Planet.Jupiter (JD - s.light_time)).1) ∧
    rect2 T C JD = C.geocen_ecl_rect_coords (earthPos C JD).1
      (earthPos C JD).2.1 (earthPos C JD).2.2 (lCorr T C JD)
      (loopFinal C JD).b (loopFinal C JD).r ∧
    dist2 T C JD = C.dist_frm_ecl_rect_coords (rect2 T C JD).1
      (rect2 T C JD).2.1 (rect2 T C JD).2.2 :=
  ⟨rfl, fun _ => rfl, rfl, rfl⟩

/-- C3 counterexample: at the concrete input `JD = 2433282.5` (so that the
pole coordinates are exactly 268 and 64.5 degree-units) with zero
obliquity and nutation inputs, zero collaborators and the constant
trigonometric instantiation, the pole coordinates actually used for the
position angle differ from what the claim prescribes (aberration followed
by nutation applied to the pole): the source applies no aberration to the
pole, and the aberration increment is nonzero there. -/
theorem pole_correction_claim_cex :
    ¬ (asc01 constTrig zeroCollab (2433282.5 : ℚ) 0 0 0,
        dec01 constTrig zeroCollab (2433282.5 : ℚ) 0 0 0) =
      applyNutation zeroCollab 0 0 (tru_oblq_eclip (0 : ℚ) 0)
        (applyAberration constTrig (earthPos zeroCollab (2433282.5 : ℚ)).1
          (tru_oblq_eclip (0 : ℚ) 0)
          (asc0 constTrig (2433282.5 : ℚ), dec0 constTrig (2433282.5 : ℚ))) := by
  simp only [asc01, dec01, asc0, dec0, applyNutation, applyAberration,
    tru_oblq_eclip, earthPos, zeroCollab, constTrig, toRadians, T1, d,
    Prod.mk.injEq, not_and]
  norm_num

/-- C3 amended: before the position angle is computed, the differential
aberration correction followed by the additive nutation correction is
applied to the target body's right ascension and declination, while the
adopted north-pole reference coordinates receive only the additive
nutation correction (no aberration); the position angle is then computed
from the two corrected pairs. -/
theorem corrections_target_aberr_nut_pole_nut (T : Trig α) (C : Collab α)
    (JD mn_oblq_eclip nut_in_long nut_in_oblq : α) :
    (asc1 T C JD mn_oblq_eclip nut_in_long nut_in_oblq,
      dec1 T C JD mn_oblq_eclip nut_in_long nut_in_oblq) =
      applyNutation C nut_in_long nut_in_oblq
        (tru_oblq_eclip mn_oblq_eclip nut_in_oblq)
        (applyAberration T (earthPos C JD).1
          (tru_oblq_eclip mn_oblq_eclip nut_in_oblq)
          (ascRaw T C JD mn_oblq_eclip, decRaw T C JD mn_oblq_eclip)) ∧
    (asc01 T C JD mn_oblq_eclip nut_in_long nut_in_oblq,
      dec01 T C JD mn_oblq_eclip nut_in_long nut_in_oblq) =
      applyNutation C nut_in_long nut_in_oblq
        (tru_oblq_eclip mn_oblq_eclip nut_in_oblq)
        (asc0 T JD, dec0 T JD) ∧
    (ephemeris T C JD mn_oblq_eclip nut_in_long nut_in_oblq).2.2.2.2 =
      positionAngle T (asc1 T C JD mn_oblq_eclip nut_in_long nut_in_oblq)
        (dec1 T C JD mn_oblq_eclip nut_in_long nut_in_oblq)
        (asc01 T C JD mn_oblq_eclip nut_in_long nut_in_oblq)
        (dec01 T C JD mn_oblq_eclip nut_in_long nut_in_oblq) :=
  ⟨rfl, rfl, rfl⟩

/-- C7: the returned position angle is a single `atan2` expression
combining the nutation-corrected target coordinates `(asc1, dec1)` and
the nutation-corrected pole coordinates `(asc01, dec01)`, and it is
returned un-normalized: whenever the `atan2` primitive lands in its
native symmetric range, so does the returned angle (no wrapping into the
0-to-360-degree range is applied). -/
theorem position_angle_single_atan2 (T : Trig α) (C : Collab α)
    (JD mn_oblq_eclip nut_in_long nut_in_oblq : α)
    (h : ∀ y x : α, -T.pi ≤ T.atan2 y x ∧ T.atan2 y x ≤ T.pi) :
    (ephemeris T C JD mn_oblq_eclip nut_in_long nut_in_oblq).2.2.2.2 =
      T.atan2
        (T.cos (dec01 T C JD mn_oblq_eclip nut_in_long nut_in_oblq) *
          T.sin (asc01 T C JD mn_oblq_eclip nut_in_long nut_in_oblq -
            asc1 T C JD mn_oblq_eclip nut_in_long nut_in_oblq))
        (T.sin (dec01 T C JD mn_oblq_eclip nut_in_long nut_in_oblq) *
            T.cos (dec1 T C JD mn_oblq_eclip nut_in_long nut_in_oblq) -
          T.cos (dec01 T C JD mn_oblq_eclip nut_in_long nut_in_oblq) *
            T.sin (dec1 T C JD mn_oblq_eclip nut_in_long nut_in_oblq) *
            T.cos (asc01 T C JD mn_oblq_eclip nut_in_long nut_in_oblq -
              asc1 T C JD mn_oblq_eclip nut_in_long nut_in_oblq)) ∧
    -T.pi ≤ (ephemeris T C JD mn_oblq_eclip nut_in_long nut_in_oblq).2.2.2.2 ∧
      (ephemeris T C JD mn_oblq_eclip nut_in_long nut_in_oblq).2.2.2.2 ≤ T.pi :=
  ⟨rfl, (h _ _).1, (h _ _).2⟩

/-- C7 witness: the hypothesis and conclusion of the position-angle
theorem at the constant rational instantiation. -/
theorem position_angle_single_atan2_witness :
    (∀ y x : ℚ, -constTrig.pi ≤ constTrig.atan2 y x ∧
      constTrig.atan2 y x ≤ constTrig.pi) ∧
    (-constTrig.pi ≤ (ephemeris constTrig zeroCollab 0 0 0 0).2.2.2.2 ∧
      (ephemeris constTrig zeroCollab 0 0 0 0).2.2.2.2 ≤ constTrig.pi) := by
  have h : ∀ y x : ℚ, -constTrig.pi ≤ constTrig.atan2 y x ∧
      constTrig.atan2 y x ≤ constTrig.pi := by
    intro y x
    exact ⟨by norm_num [constTrig], by norm_num [constTrig]⟩
  exact ⟨h, (position_angle_single_atan2 constTrig zeroCollab 0 0 0 0 h).2⟩

/-- C9: the ephemeris is deterministic: two calls with identical inputs
(and the same trigonometric primitives and external collaborators) yield
identical 5-tuples, since the computation reads nothing but its
arguments. -/
theorem ephemeris_deterministic (T : Trig α) (C : Collab α)
    (JD JDb mn_oblq_eclip mnb nut_in_long nlb nut_in_oblq nob : α)
    (h1 : JD = JDb) (h2 : mn_oblq_eclip = mnb) (h3 : nut_in_long = nlb)
    (h4 : nut_in_oblq = nob) :
    ephemeris T C JD mn_oblq_eclip nut_in_long nut_in_oblq =
      ephemeris T C JDb mnb nlb nob := by
  rw [h1, h2, h3, h4]

/-- C9 witness: determinism instantiated at a concrete rational input. -/
theorem ephemeris_deterministic_witness :
    ((0 : ℚ) = 0) ∧
    ephemeris constTrig zeroCollab 0 0 0 0 =
      ephemeris constTrig zeroCollab 0 0 0 0 :=
  ⟨rfl, ephemeris_deterministic constTrig zeroCollab 0 0 0 0 0 0 0 0
    rfl rfl rfl rfl⟩

/-- C10: whenever the `asin` primitive lands in its native range (plus or
minus a quarter turn) and the `atan2` primitive lands in its native range
(plus or minus a half turn), the two planetographic latitudes returned by
the ephemeris land in the `asin` range — each being a direct `asin`
result — and the returned position angle lands in the `atan2` range,
being a direct `atan2` result. -/
theorem latitudes_and_axis_angle_ranges (T : Trig α) (C : Collab α)
    (JD mn_oblq_eclip nut_in_long nut_in_oblq : α)
    (ha : ∀ x : α, -(T.pi / 2) ≤ T.asin x ∧ T.asin x ≤ T.pi / 2)
    (hb : ∀ y x : α, -T.pi ≤ T.atan2 y x ∧ T.atan2 y x ≤ T.pi) :
    (-(T.pi / 2) ≤ (ephemeris T C JD mn_oblq_eclip nut_in_long nut_in_oblq).1 ∧
      (ephemeris T C JD mn_oblq_eclip nut_in_long nut_in_oblq).1 ≤ T.pi / 2) ∧
    (-(T.pi / 2) ≤
        (ephemeris T C JD mn_oblq_eclip nut_in_long nut_in_oblq).2.1 ∧
      (ephemeris T C JD mn_oblq_eclip nut_in_long nut_in_oblq).2.1 ≤
        T.pi / 2) ∧
    (-T.pi ≤ (ephemeris T C JD mn_oblq_eclip nut_in_long nut_in_oblq).2.2.2.2 ∧
      (ephemeris T C JD mn_oblq_eclip nut_in_long nut_in_oblq).2.2.2.2 ≤
        T.pi) :=
  ⟨ha _, ha _, hb _ _⟩

/-- C10 witness: the hypotheses and conclusion of the range theorem at
the constant rational instantiation. -/
theorem latitudes_and_axis_angle_ranges_witness :
    (∀ x : ℚ, -(constTrig.pi / 2) ≤ constTrig.asin x ∧
      constTrig.asin x ≤ constTrig.pi / 2) ∧
    (∀ y x : ℚ, -constTrig.pi ≤ constTrig.atan2 y x ∧
      constTrig.atan2 y x ≤ constTrig.pi) ∧
    (-(constTrig.pi / 2) ≤ (ephemeris constTrig zeroCollab 0 0 0 0).1 ∧
      (ephemeris constTrig zeroCollab 0 0 0 0).1 ≤ constTrig.pi / 2) := by
  have ha : ∀ x : ℚ, -(constTrig.pi / 2) ≤ constTrig.asin x ∧
      constTrig.asin x ≤ constTrig.pi / 2 := by
    intro x
    exact ⟨by norm_num [constTrig], by norm_num [constTrig]⟩
  have hb : ∀ y x : ℚ, -constTrig.pi ≤ constTrig.atan2 y x ∧
      constTrig.atan2 y x ≤ constTrig.pi := by
    intro y x
    exact ⟨by norm_num [constTrig], by norm_num [constTrig]⟩
  exact ⟨ha, hb,
    (latitudes_and_axis_angle_ranges constTrig zeroCollab 0 0 0 0 ha hb).1⟩

end jupiter

end Astro
